import Mathlib

/-!
Verification of the prediction-and-persistence workflow of the
diabetic-retinopathy Streamlit application (`main.py`).

Classifier scores are embedded as rationals (`ℚ`); the source manipulates
them only through comparisons (arg-max) and copying, so the embedding is
faithful for the properties below.  `np.argmax` returns the index of the
first occurrence of the maximum, which `argmaxPair` reproduces.
-/

namespace DRApp

/-- `class_names = ['Mild', 'Moderate', 'Severe', 'Proliferative DR']`
(main.py line 31). -/
def class_names : List String := ["Mild", "Moderate", "Severe", "Proliferative DR"]

/-- Embedding of `np.argmax` on a one-dimensional score vector, returning the
index of the first occurrence of the maximum together with that maximum
value; `none` on the empty vector (where `np.argmax` raises `ValueError`). -/
def argmaxPair : List ℚ → Option (Nat × ℚ)
  | [] => none
  | x :: xs =>
    match argmaxPair xs with
    | none => some (0, x)
    | some (j, m) => if x < m then some (j + 1, m) else some (0, x)

/-- The arg-max index alone, as computed by `np.argmax(prediction)`
(main.py line 119). -/
def argmaxIdx (l : List ℚ) : Option Nat := (argmaxPair l).map Prod.fst

/-- The prediction step of `home_page` (main.py lines 118-121): from the
classifier output vector `prediction[0]`, compute
`predicted_class_index = np.argmax(prediction)`, look up
`class_names[predicted_class_index]` and
`prediction[0][predicted_class_index]`.  `none` models the Python
exceptions: `ValueError` on an empty vector, `IndexError` on an
out-of-range class lookup. -/
def home_page_predict (prediction : List ℚ) : Option (String × ℚ) :=
  match argmaxIdx prediction with
  | none => none
  | some predicted_class_index =>
    match class_names.get? predicted_class_index,
          prediction.get? predicted_class_index with
    | some predicted_class, some confidence => some (predicted_class, confidence)
    | _, _ => none

theorem argmaxPair_eq_none {l : List ℚ} (h : argmaxPair l = none) : l = [] := by
  cases l with
  | nil => rfl
  | cons x xs =>
    simp only [argmaxPair] at h
    cases hx : argmaxPair xs with
    | none => simp [hx] at h
    | some p =>
      obtain ⟨j, m⟩ := p
      simp only [hx] at h
      by_cases hc : x < m <;> simp [hc] at h

theorem argmaxPair_get {l : List ℚ} {j : Nat} {m : ℚ}
    (h : argmaxPair l = some (j, m)) : l.get? j = some m := by
  induction l generalizing j m with
  | nil => simp [argmaxPair] at h
  | cons x xs ih =>
    simp only [argmaxPair] at h
    cases hx : argmaxPair xs with
    | none =>
      simp only [hx] at h
      injection h with h
      injection h with h1 h2
      subst h1; subst h2; rfl
    | some p =>
      obtain ⟨j0, m0⟩ := p
      simp only [hx] at h
      by_cases hc : x < m0
      · simp only [if_pos hc] at h
        injection h with h
        injection h with h1 h2
        subst h1; subst h2
        simpa using ih hx
      · simp only [if_neg hc] at h
        injection h with h
        injection h with h1 h2
        subst h1; subst h2; rfl

theorem argmaxPair_lt_length {l : List ℚ} {j : Nat} {m : ℚ}
    (h : argmaxPair l = some (j, m)) : j < l.length :=
  List.get?_eq_some.mp (argmaxPair_get h) |>.1

theorem argmaxPair_le {l : List ℚ} {j : Nat} {m : ℚ}
    (h : argmaxPair l = some (j, m)) : ∀ y ∈ l, y ≤ m := by
  induction l generalizing j m with
  | nil => simp [argmaxPair] at h
  | cons x xs ih =>
    simp only [argmaxPair] at h
    cases hx : argmaxPair xs with
    | none =>
      have hxs := argmaxPair_eq_none hx
      subst hxs
      simp only [hx] at h
      injection h with h
      injection h with h1 h2
      subst h2
      simp
    | some p =>
      obtain ⟨j0, m0⟩ := p
      simp only [hx] at h
      by_cases hc : x < m0
      · simp only [if_pos hc] at h
        injection h with h
        injection h with h1 h2
        subst h2
        intro y hy
        rcases List.mem_cons.mp hy with rfl | hy
        · exact le_of_lt hc
        · exact ih hx y hy
      · simp only [if_neg hc] at h
        injection h with h
        injection h with h1 h2
        subst h2
        intro y hy
        rcases List.mem_cons.mp hy with rfl | hy
        · exact le_refl y
        · exact le_trans (ih hx y hy) (le_of_not_lt hc)

theorem argmaxPair_first {l : List ℚ} {j : Nat} {m : ℚ}
    (h : argmaxPair l = some (j, m)) :
    ∀ k, k < j → ∀ y, l.get? k = some y → y < m := by
  induction l generalizing j m with
  | nil => simp [argmaxPair] at h
  | cons x xs ih =>
    simp only [argmaxPair] at h
    cases hx : argmaxPair xs with
    | none =>
      simp only [hx] at h
      injection h with h
      injection h with h1 h2
      subst h1
      intro k hk
      exact absurd hk (Nat.not_lt_zero k)
    | some p =>
      obtain ⟨j0, m0⟩ := p
      simp only [hx] at h
      by_cases hc : x < m0
      · simp only [if_pos hc] at h
        injection h with h
        injection h with h1 h2
        subst h1; subst h2
        intro k hk y hy
        cases k with
        | zero =>
          simp only [List.get?] at hy
          injection hy with hy
          subst hy
          exact hc
        | succ k0 =>
          exact ih hx k0 (Nat.lt_of_succ_lt_succ hk) y hy
      · simp only [if_neg hc] at h
        injection h with h
        injection h with h1 h2
        subst h1
        intro k hk
        exact absurd hk (Nat.not_lt_zero k)

theorem argmaxIdx_spec {l : List ℚ} {i : Nat} (h : argmaxIdx l = some i) :
    ∃ m, argmaxPair l = some (i, m) := by
  cases hq : argmaxPair l with
  | none => simp [argmaxIdx, hq] at h
  | some p =>
    obtain ⟨j, m⟩ := p
    simp only [argmaxIdx, hq, Option.map] at h
    injection h with h
    subst h
    exact ⟨m, rfl⟩

/-- A row of the prediction-history table, as rendered by `history_page`
(main.py lines 164-174): user id, image path, class label, confidence,
creation time. -/
structure PredRecord where
  user_id : Nat
  image_path : String
  prediction_class : String
  confidence : ℚ
  created_at : Nat
deriving DecidableEq, Repr

/-- State of the prediction-record store: the rows in insertion order plus a
monotone clock supplying the server-assigned `created_at` timestamps. -/
structure PredDB where
  rows : List PredRecord
  clock : Nat
deriving DecidableEq, Repr

/-- Modelled from the spec: `db_module.Database.save_prediction` (called at
main.py lines 124-129) is not under src/.  Per §4.5, `record(...)` inserts a
new immutable record with a server-assigned timestamp. -/
def save_prediction (db : PredDB) (user_id : Nat) (image_path prediction_class : String)
    (confidence : ℚ) : PredDB :=
  { rows := db.rows ++ [⟨user_id, image_path, prediction_class, confidence, db.clock⟩],
    clock := db.clock + 1 }

/-- Modelled from the spec: `db_module.Database.get_user_predictions` (called
at main.py line 157) is not under src/.  Per §4.5, `listByUser(user_id)`
returns the user's records in a consistent creation-time order (here:
ascending, i.e. insertion order) and an empty sequence when there are none. -/
def get_user_predictions (db : PredDB) (user_id : Nat) : List PredRecord :=
  db.rows.filter (fun r => r.user_id = user_id)

/-- What `history_page` (main.py lines 153-161) renders: the empty-history
notice when the user's prediction list is empty, otherwise the list itself. -/
inductive HistoryView where
  | noHistory
  | entries (preds : List PredRecord)
deriving DecidableEq, Repr

/-- Embedding of `history_page` (main.py lines 153-161): fetch the user's
predictions; if the list is falsy (empty) show the info notice and return,
otherwise display the records. -/
def history_page (db : PredDB) (user_id : Nat) : HistoryView :=
  let predictions := get_user_predictions db user_id
  if predictions.isEmpty then .noHistory else .entries predictions

/-- A row of the users table (spec §3): id, unique username, email, password
credential, full name. -/
structure User where
  id : Nat
  username : String
  email : String
  password : String
  full_name : String
deriving DecidableEq, Repr

/-- State of the user store: rows plus the next server-assigned id. -/
structure UsersDB where
  users : List User
  next_id : Nat
deriving DecidableEq, Repr

/-- Modelled from the spec: `db_module.Database.authenticate_user` (called at
main.py line 46) is not under src/.  Per §4.6 it is a username/password
lookup returning the user on a match and failing otherwise. -/
def authenticate_user (db : UsersDB) (username password : String) : Option User :=
  db.users.find? (fun u => u.username = username && u.password = password)

/-- Modelled from the spec: `db_module.Database.create_user` (called at
main.py line 69) is not under src/.  Per §4.6 it fails with
`DuplicateUsername` when the username is taken, else inserts the row. -/
def create_user (db : UsersDB) (username email password full_name : String) :
    Except String UsersDB :=
  if db.users.any (fun u => u.username = username) then
    .error "DuplicateUsername"
  else
    .ok { users := db.users ++ [⟨db.next_id, username, email, password, full_name⟩],
          next_id := db.next_id + 1 }

/-- The Streamlit session state used by the app: `st.session_state.user` and
`st.session_state.page` (main.py lines 34-37). -/
structure SessionState where
  user : Option User
  page : String
deriving DecidableEq, Repr

/-- Outcome of a sign-up submission as surfaced by `signup_form`. -/
inductive SignupOutcome where
  | mismatchError
  | created
  | creationError (msg : String)
deriving DecidableEq, Repr

/-- Embedding of the submit branch of `signup_form` (main.py lines 64-74):
when the password and confirmation differ, show the mismatch error without
calling `db.create_user`; otherwise call it, catching any exception.
Returns the resulting user store and the surfaced outcome. -/
def signup_form_submit (db : UsersDB)
    (username email password confirm_password full_name : String) :
    UsersDB × SignupOutcome :=
  if password ≠ confirm_password then
    (db, .mismatchError)
  else
    match create_user db username email password full_name with
    | .ok db2 => (db2, .created)
    | .error e => (db, .creationError e)

/-- Embedding of the submit branch of `login_form` (main.py lines 45-53):
authenticate; on success set `st.session_state.user` to the user and
`st.session_state.page` to `'home'`; on failure show the error and leave the
session unchanged.  The Bool reports success. -/
def login_form_submit (db : UsersDB) (s : SessionState) (username password : String) :
    SessionState × Bool :=
  match authenticate_user db username password with
  | some u => ({ user := some u, page := "home" }, true)
  | none => (s, false)

/-- The page body `main` renders (main.py lines 233-242): the authentication
page, one of the three authenticated pages, or nothing at all (no branch of
the routing matches). -/
inductive Rendered where
  | authPage
  | homePage
  | historyPage
  | profilePage
  | nothing
deriving DecidableEq, Repr

/-- Embedding of the page routing of `main` (main.py lines 233-242): when
`st.session_state.user is None` render `auth_page`; otherwise dispatch on
`st.session_state.page`, with no default branch. -/
def route (s : SessionState) : Rendered :=
  match s.user with
  | none => .authPage
  | some _ =>
    if s.page = "home" then .homePage
    else if s.page = "history" then .historyPage
    else if s.page = "profile" then .profilePage
    else .nothing

/-- Embedding of the Logout button handler (main.py lines 228-231): set the
session user to `None` and the page to `'login'`. -/
def logout (s : SessionState) : SessionState :=
  { s with user := none, page := "login" }

/-- The remedy lookup of `home_page` (main.py line 138):
`remedies_data.get(predicted_class, 'No remedy available')`, i.e. a pure
read of the table loaded from `remedies.json` with a sentinel default.  The
table contents are configuration, so the table is a parameter; `List.lookup`
matches Python `dict.get` on the association list of its entries. -/
def remedies_get (remedies_data : List (String × String)) (label : String) : String :=
  match remedies_data.lookup label with
  | some text => text
  | none => "No remedy available"

/-- The full prediction-and-persistence step of `home_page` (main.py lines
118-129): run the prediction step and, on success, `db.save_prediction(
st.session_state.user['id'], image_path, predicted_class, confidence)`.
`none` models the uncaught Python exception aborting the handler before any
database write. -/
def home_page_submit (db : PredDB) (user_id : Nat) (image_path : String)
    (prediction : List ℚ) : Option PredDB :=
  match home_page_predict prediction with
  | none => none
  | some (predicted_class, confidence) =>
    some (save_prediction db user_id image_path predicted_class confidence)

theorem home_page_predict_spec {prediction : List ℚ} {c : String} {conf : ℚ}
    (h : home_page_predict prediction = some (c, conf)) :
    ∃ i, argmaxPair prediction = some (i, conf) ∧ class_names.get? i = some c := by
  cases hA : argmaxIdx prediction with
  | none => simp [home_page_predict, hA] at h
  | some i =>
    obtain ⟨m, hp⟩ := argmaxIdx_spec hA
    have hg : prediction.get? i = some m := argmaxPair_get hp
    cases hcn : class_names.get? i with
    | none =>
      have hcn' : class_names[i]? = none := by rw [← List.get?_eq_getElem?]; exact hcn
      simp [home_page_predict, hA, hcn'] at h
    | some cls =>
      simp only [home_page_predict, hA, hcn, hg, Option.some.injEq, Prod.mk.injEq] at h
      obtain ⟨h1, h2⟩ := h
      subst h1; subst h2
      exact ⟨i, hp, hcn⟩

theorem home_page_submit_spec {db : PredDB} {user_id : Nat} {image_path : String}
    {prediction : List ℚ} {db2 : PredDB}
    (h : home_page_submit db user_id image_path prediction = some db2) :
    ∃ c conf, home_page_predict prediction = some (c, conf) ∧
      db2 = save_prediction db user_id image_path c conf := by
  unfold home_page_submit at h
  cases hp : home_page_predict prediction with
  | none => rw [hp] at h; exact absurd h (by simp)
  | some p =>
    obtain ⟨c, conf⟩ := p
    rw [hp] at h
    injection h with h
    exact ⟨c, conf, rfl, h.symm⟩

/-- C1: whenever the prediction workflow of `home_page` completes on a
classifier output vector, the class it chooses and stores is
`class_names` at the arg-max index of the vector (first occurrence of the
maximum, as `np.argmax` computes it), and the confidence reported and
stored in the new record is exactly the score at that same index. -/
theorem C1_prediction_uses_argmax_class_and_confidence
    (db : PredDB) (uid : Nat) (path : String) (prediction : List ℚ) (db2 : PredDB)
    (h : home_page_submit db uid path prediction = some db2) :
    ∃ i c m,
      prediction.get? i = some m ∧
      (∀ y ∈ prediction, y ≤ m) ∧
      (∀ k, k < i → ∀ y, prediction.get? k = some y → y < m) ∧
      class_names.get? i = some c ∧
      db2.rows = db.rows ++ [⟨uid, path, c, m, db.clock⟩] := by
  obtain ⟨c, conf, hpred, hdb⟩ := home_page_submit_spec h
  obtain ⟨i, hp, hcn⟩ := home_page_predict_spec hpred
  exact ⟨i, c, conf, argmaxPair_get hp, argmaxPair_le hp, argmaxPair_first hp, hcn,
    by rw [hdb]; rfl⟩

/-- Witness for C1 at the concrete vector `[0, 1, 0, 0]`. -/
theorem C1_witness :
    home_page_submit ⟨[], 0⟩ 7 "img.png" [0, 1, 0, 0] =
      some ⟨[⟨7, "img.png", "Moderate", 1, 0⟩], 1⟩ ∧
    ∃ i c m,
      ([0, 1, 0, 0] : List ℚ).get? i = some m ∧
      (∀ y ∈ ([0, 1, 0, 0] : List ℚ), y ≤ m) ∧
      (∀ k, k < i → ∀ y, ([0, 1, 0, 0] : List ℚ).get? k = some y → y < m) ∧
      class_names.get? i = some c ∧
      (⟨[⟨7, "img.png", "Moderate", 1, 0⟩], 1⟩ : PredDB).rows =
        (⟨[], 0⟩ : PredDB).rows ++ [⟨7, "img.png", c, m, (⟨[], 0⟩ : PredDB).clock⟩] := by
  have hEval : home_page_submit ⟨[], 0⟩ 7 "img.png" [0, 1, 0, 0] =
      some ⟨[⟨7, "img.png", "Moderate", 1, 0⟩], 1⟩ := by decide
  exact ⟨hEval, C1_prediction_uses_argmax_class_and_confidence _ _ _ _ _ hEval⟩

/-- C3: the remedy lookup returns the configured advisory text when the label
is a key of the table and the sentinel string "No remedy available" when it
is absent; it is a pure function of the table and the label. -/
theorem C3_remedy_lookup_total (remedies_data : List (String × String))
    (label text : String) :
    (remedies_data.lookup label = some text →
      remedies_get remedies_data label = text) ∧
    (remedies_data.lookup label = none →
      remedies_get remedies_data label = "No remedy available") := by
  constructor <;> intro h <;> simp [remedies_get, h]

/-- Witness for C3: a present key returns its text, an absent key the
sentinel. -/
theorem C3_witness :
    (([("Mild", "Maintain a healthy diet")].lookup "Mild" =
        some "Maintain a healthy diet" ∧
      remedies_get [("Mild", "Maintain a healthy diet")] "Mild" =
        "Maintain a healthy diet") ∧
     ([("Mild", "Maintain a healthy diet")].lookup "Unknown" = none ∧
      remedies_get [("Mild", "Maintain a healthy diet")] "Unknown" =
        "No remedy available")) := by
  refine ⟨⟨?_, (C3_remedy_lookup_total [("Mild", "Maintain a healthy diet")] "Mild"
      "Maintain a healthy diet").1 ?_⟩,
    ⟨?_, (C3_remedy_lookup_total [("Mild", "Maintain a healthy diet")] "Unknown"
      "").2 ?_⟩⟩ <;> decide

/-- C4 counterexample: the workflow does not clamp the classifier score, so
the output vector `[2, 0, 0, 0]` produces a stored record with confidence
`2`, which is not in `[0, 1]`. -/
theorem C4_counterexample :
    home_page_submit ⟨[], 0⟩ 1 "img.png" [2, 0, 0, 0] =
      some ⟨[⟨1, "img.png", "Mild", 2, 0⟩], 1⟩ ∧
    ¬ ((2 : ℚ) ≤ 1) := by
  constructor <;> decide

/-- C4 (amended): every PredictionRecord created by the workflow from a
classifier output vector whose scores all lie in [0,1] satisfies the
data-model invariant: its predicted class is a member of `class_names` and
its stored confidence lies in [0,1]. -/
theorem C4_record_invariant (db : PredDB) (uid : Nat) (path : String)
    (prediction : List ℚ) (db2 : PredDB)
    (hb : ∀ y ∈ prediction, 0 ≤ y ∧ y ≤ 1)
    (h : home_page_submit db uid path prediction = some db2) :
    ∃ r : PredRecord, db2.rows = db.rows ++ [r] ∧
      r.prediction_class ∈ class_names ∧ 0 ≤ r.confidence ∧ r.confidence ≤ 1 := by
  obtain ⟨c, conf, hpred, hdb⟩ := home_page_submit_spec h
  obtain ⟨i, hp, hcn⟩ := home_page_predict_spec hpred
  have hconf : conf ∈ prediction := List.get?_mem (argmaxPair_get hp)
  exact ⟨⟨uid, path, c, conf, db.clock⟩, by rw [hdb]; rfl, List.get?_mem hcn,
    (hb conf hconf).1, (hb conf hconf).2⟩

/-- Witness for C4 (amended) at the probability vector
`[1, 0, 0, 0]`. -/
theorem C4_record_invariant_witness :
    (∀ y ∈ ([1, 0, 0, 0] : List ℚ), 0 ≤ y ∧ y ≤ 1) ∧
    home_page_submit ⟨[], 0⟩ 3 "scan.png" [1, 0, 0, 0] =
      some ⟨[⟨3, "scan.png", "Mild", 1, 0⟩], 1⟩ ∧
    ∃ r : PredRecord,
      (⟨[⟨3, "scan.png", "Mild", 1, 0⟩], 1⟩ : PredDB).rows =
        (⟨[], 0⟩ : PredDB).rows ++ [r] ∧
      r.prediction_class ∈ class_names ∧ 0 ≤ r.confidence ∧ r.confidence ≤ 1 := by
  have hb : ∀ y ∈ ([1, 0, 0, 0] : List ℚ), 0 ≤ y ∧ y ≤ 1 := by decide
  have hEval : home_page_submit ⟨[], 0⟩ 3 "scan.png" [1, 0, 0, 0] =
      some ⟨[⟨3, "scan.png", "Mild", 1, 0⟩], 1⟩ := by decide
  exact ⟨hb, hEval, C4_record_invariant _ _ _ _ _ hb hEval⟩

/-- C9: the class-name lookup `class_names[np.argmax(prediction)]` is
guaranteed in bounds when the output vector is no longer than
`class_names`; when the arg-max index is ≥ 4 (= `class_names.length`) the
lookup is out of bounds and the prediction step fails. -/
theorem C9_class_lookup_bounds (prediction : List ℚ) (i : Nat)
    (h : argmaxIdx prediction = some i) :
    (prediction.length ≤ class_names.length → (class_names.get? i).isSome) ∧
    (class_names.length ≤ i →
      class_names.get? i = none ∧ home_page_predict prediction = none) := by
  obtain ⟨m, hp⟩ := argmaxIdx_spec h
  have hlt : i < prediction.length := argmaxPair_lt_length hp
  constructor
  · intro hlen
    have hlt4 : i < class_names.length := lt_of_lt_of_le hlt hlen
    cases hcn : class_names.get? i with
    | none => exact absurd (List.get?_eq_none.mp hcn) (not_le.mpr hlt4)
    | some c => rfl
  · intro hge
    have hnone : class_names.get? i = none := List.get?_eq_none.mpr hge
    have hnone' : class_names[i]? = none := by
      rw [← List.get?_eq_getElem?]; exact hnone
    have hg' : prediction[i]? = some m := by
      rw [← List.get?_eq_getElem?]; exact argmaxPair_get hp
    exact ⟨hnone, by simp [home_page_predict, h, hnone', hg']⟩

/-- Witness for C9 at the five-score vector `[0, 0, 0, 0, 9]`, whose arg-max
index 4 is out of range for the four class names. -/
theorem C9_witness :
    argmaxIdx [0, 0, 0, 0, 9] = some 4 ∧
    ((([0, 0, 0, 0, 9] : List ℚ).length ≤ class_names.length →
        (class_names.get? 4).isSome) ∧
     (class_names.length ≤ 4 →
        class_names.get? 4 = none ∧ home_page_predict [0, 0, 0, 0, 9] = none)) := by
  have h : argmaxIdx ([0, 0, 0, 0, 9] : List ℚ) = some 4 := by decide
  exact ⟨h, C9_class_lookup_bounds _ _ h⟩

/-- C2: recording a prediction and then listing that user's predictions
yields the user's prior records followed by the new one with all fields
equal to what was written; for a user with no prior records the listing is
exactly the new record. -/
theorem C2_record_then_list (db : PredDB) (uid : Nat) (path cls : String) (conf : ℚ) :
    (∃ r ∈ get_user_predictions (save_prediction db uid path cls conf) uid,
        r.user_id = uid ∧ r.image_path = path ∧ r.prediction_class = cls ∧
        r.confidence = conf) ∧
    (get_user_predictions db uid = [] →
      get_user_predictions (save_prediction db uid path cls conf) uid =
        [⟨uid, path, cls, conf, db.clock⟩]) := by
  have hsplit : get_user_predictions (save_prediction db uid path cls conf) uid =
      get_user_predictions db uid ++ [⟨uid, path, cls, conf, db.clock⟩] := by
    simp [get_user_predictions, save_prediction, List.filter_append]
  constructor
  · exact ⟨⟨uid, path, cls, conf, db.clock⟩, by rw [hsplit]; simp, rfl, rfl, rfl, rfl⟩
  · intro hempty
    rw [hsplit, hempty]
    rfl

/-- Witness for C2: recording into an empty store and listing returns
exactly the written record. -/
theorem C2_witness :
    get_user_predictions ⟨[], 0⟩ 5 = [] ∧
    get_user_predictions (save_prediction ⟨[], 0⟩ 5 "a.png" "Severe" 1) 5 =
      [⟨5, "a.png", "Severe", 1, 0⟩] := by
  have h : get_user_predictions (⟨[], 0⟩ : PredDB) 5 = [] := by decide
  exact ⟨h, (C2_record_then_list ⟨[], 0⟩ 5 "a.png" "Severe" 1).2 h⟩

/-- C5: a sign-up submission whose password and confirmation differ fails
with the mismatch error, `db.create_user` is never reached, and the user
store is returned unchanged. -/
theorem C5_signup_mismatch_no_user_created (db : UsersDB)
    (username email password confirm_password full_name : String)
    (h : password ≠ confirm_password) :
    signup_form_submit db username email password confirm_password full_name =
      (db, SignupOutcome.mismatchError) := by
  simp [signup_form_submit, h]

/-- Witness for C5 at a concrete mismatched submission. -/
theorem C5_witness :
    ("pw1" : String) ≠ "pw2" ∧
    signup_form_submit ⟨[], 0⟩ "alice" "a@x.com" "pw1" "pw2" "Alice" =
      (⟨[], 0⟩, SignupOutcome.mismatchError) := by
  have h : ("pw1" : String) ≠ "pw2" := by decide
  exact ⟨h, C5_signup_mismatch_no_user_created _ _ _ _ _ _ h⟩

/-- C6: authentication with a username and the matching password succeeds
and the session user becomes the authenticated user with the page set to
home; when no stored user matches the credentials, login fails and the
session is unchanged. -/
theorem C6_login_auth (db : UsersDB) (s : SessionState) (username password : String) :
    ((∃ u ∈ db.users, u.username = username ∧ u.password = password) →
      ∃ u, u.username = username ∧ u.password = password ∧
        login_form_submit db s username password =
          ({ user := some u, page := "home" }, true)) ∧
    ((∀ u ∈ db.users, ¬(u.username = username ∧ u.password = password)) →
      login_form_submit db s username password = (s, false)) := by
  constructor
  · rintro ⟨u, hu, hn, hp⟩
    cases hv : db.users.find? (fun v => v.username = username && v.password = password) with
    | none =>
      rw [List.find?_eq_none] at hv
      exact absurd (by simp [hn, hp]) (hv u hu)
    | some v =>
      have hvp := List.find?_some hv
      simp only [Bool.and_eq_true, decide_eq_true_eq] at hvp
      refine ⟨v, hvp.1, hvp.2, ?_⟩
      simp [login_form_submit, authenticate_user, hv]
  · intro hall
    have hv : db.users.find?
        (fun v => v.username = username && v.password = password) = none := by
      rw [List.find?_eq_none]
      intro u hu
      simp only [Bool.and_eq_true, decide_eq_true_eq]
      exact hall u hu
    simp [login_form_submit, authenticate_user, hv]

/-- Witness for C6: a stored user logs in with the correct password and is
rejected with a wrong one, the session left unchanged. -/
theorem C6_witness :
    (∃ u ∈ (⟨[⟨1, "alice", "a@x.com", "secret", "Alice"⟩], 2⟩ : UsersDB).users,
        u.username = "alice" ∧ u.password = "secret") ∧
    (∃ u, u.username = "alice" ∧ u.password = "secret" ∧
      login_form_submit ⟨[⟨1, "alice", "a@x.com", "secret", "Alice"⟩], 2⟩
          ⟨none, "login"⟩ "alice" "secret" =
        ({ user := some u, page := "home" }, true)) ∧
    (∀ u ∈ (⟨[⟨1, "alice", "a@x.com", "secret", "Alice"⟩], 2⟩ : UsersDB).users,
        ¬(u.username = "alice" ∧ u.password = "wrong")) ∧
    login_form_submit ⟨[⟨1, "alice", "a@x.com", "secret", "Alice"⟩], 2⟩
        ⟨none, "login"⟩ "alice" "wrong" = (⟨none, "login"⟩, false) := by
  have h1 : ∃ u ∈ (⟨[⟨1, "alice", "a@x.com", "secret", "Alice"⟩], 2⟩ : UsersDB).users,
      u.username = "alice" ∧ u.password = "secret" := by decide
  have h2 : ∀ u ∈ (⟨[⟨1, "alice", "a@x.com", "secret", "Alice"⟩], 2⟩ : UsersDB).users,
      ¬(u.username = "alice" ∧ u.password = "wrong") := by decide
  exact ⟨h1, (C6_login_auth _ ⟨none, "login"⟩ "alice" "secret").1 h1, h2,
    (C6_login_auth _ ⟨none, "login"⟩ "alice" "wrong").2 h2⟩

/-- C7: for a user with zero prediction records, listing returns the empty
sequence (not an error) and the history page renders the empty-history
notice without failing. -/
theorem C7_empty_history (db : PredDB) (uid : Nat)
    (h : ∀ r ∈ db.rows, r.user_id ≠ uid) :
    get_user_predictions db uid = [] ∧ history_page db uid = HistoryView.noHistory := by
  have h1 : get_user_predictions db uid = [] := by
    unfold get_user_predictions
    rw [List.filter_eq_nil_iff]
    intro r hr
    simp [h r hr]
  refine ⟨h1, ?_⟩
  simp [history_page, h1]

/-- Witness for C7: a store holding only another user's record lists empty
for user 2. -/
theorem C7_witness :
    (∀ r ∈ (⟨[⟨1, "a.png", "Mild", 1, 0⟩], 1⟩ : PredDB).rows, r.user_id ≠ 2) ∧
    get_user_predictions ⟨[⟨1, "a.png", "Mild", 1, 0⟩], 1⟩ 2 = [] ∧
    history_page ⟨[⟨1, "a.png", "Mild", 1, 0⟩], 1⟩ 2 = HistoryView.noHistory := by
  have h : ∀ r ∈ (⟨[⟨1, "a.png", "Mild", 1, 0⟩], 1⟩ : PredDB).rows,
      r.user_id ≠ 2 := by decide
  obtain ⟨h1, h2⟩ := C7_empty_history _ _ h
  exact ⟨h, h1, h2⟩

/-- C8: when the session user is `None` the router renders only the
authentication page; logout sets the user to `None` and the page to
`'login'`, after which the router renders the authentication page; and no
authenticated page is ever rendered without a logged-in user. -/
theorem C8_router_guards_auth (s : SessionState) :
    (s.user = none → route s = Rendered.authPage) ∧
    ((logout s).user = none ∧ (logout s).page = "login" ∧
      route (logout s) = Rendered.authPage) ∧
    (route s = Rendered.homePage ∨ route s = Rendered.historyPage ∨
        route s = Rendered.profilePage → s.user ≠ none) := by
  refine ⟨?_, ⟨rfl, rfl, rfl⟩, ?_⟩
  · intro h
    simp [route, h]
  · intro hr hnone
    simp [route, hnone] at hr

/-- Witness for C8 at a logged-out session and a logged-in session being
logged out. -/
theorem C8_witness :
    ((⟨none, "home"⟩ : SessionState).user = none ∧
      route ⟨none, "home"⟩ = Rendered.authPage) ∧
    ((logout ⟨some ⟨1, "alice", "a@x.com", "secret", "Alice"⟩, "profile"⟩).user = none ∧
      (logout ⟨some ⟨1, "alice", "a@x.com", "secret", "Alice"⟩, "profile"⟩).page = "login" ∧
      route (logout ⟨some ⟨1, "alice", "a@x.com", "secret", "Alice"⟩, "profile"⟩) =
        Rendered.authPage) := by
  exact ⟨⟨rfl, (C8_router_guards_auth ⟨none, "home"⟩).1 rfl⟩,
    (C8_router_guards_auth ⟨some ⟨1, "alice", "a@x.com", "secret", "Alice"⟩,
      "profile"⟩).2.1⟩

/-- C10: for a logged-in user, a session page value other than 'home',
'history' or 'profile' makes the router render no page body at all: the
routing has no default branch. -/
theorem C10_unknown_page_renders_nothing (s : SessionState) (u : User)
    (hu : s.user = some u) (h1 : s.page ≠ "home") (h2 : s.page ≠ "history")
    (h3 : s.page ≠ "profile") :
    route s = Rendered.nothing := by
  simp [route, hu, h1, h2, h3]

/-- Witness for C10 at a logged-in session whose page is 'settings'. -/
theorem C10_witness :
    ((⟨some ⟨1, "alice", "a@x.com", "secret", "Alice"⟩, "settings"⟩ : SessionState).user =
        some ⟨1, "alice", "a@x.com", "secret", "Alice"⟩ ∧
      ("settings" : String) ≠ "home" ∧ ("settings" : String) ≠ "history" ∧
      ("settings" : String) ≠ "profile") ∧
    route ⟨some ⟨1, "alice", "a@x.com", "secret", "Alice"⟩, "settings"⟩ =
      Rendered.nothing := by
  refine ⟨⟨rfl, by decide, by decide, by decide⟩,
    C10_unknown_page_renders_nothing _ ⟨1, "alice", "a@x.com", "secret", "Alice"⟩
      rfl (by decide) (by decide) (by decide)⟩

end DRApp
